import Mathlib

/-!
Shallow embedding of `main.go` of the amazon-bedrock-with-langchain
repository: a Bedrock LLM client (`Model` with `Generate` / `Call`),
a document fetcher (`getDocsFromLink`), and the request/response wire
types, together with theorems settling the specification claims.

Modelling conventions:
* Go `float64` sampling parameters are modelled as `Rat`; the values the
  program handles (`0`, `0.1`, …) are exact, and `encoding/json`'s
  `omitempty` test `v == 0` coincides with `Rat` equality with `0`.
* `json.Marshal` of the `Request` struct is modelled as a function to an
  ordered field list (`Payload`); with `Rat` parameters it is total, as
  marshalling this struct in Go only fails on non-finite floats.
* The Bedrock runtime client, an external collaborator, is a function
  field of `Model`: given the model id and the serialized payload it
  returns either a transport error or a response body.  A body is an
  `Option Json`: `none` stands for bytes that are not valid JSON,
  `some j` for bytes parsing to the JSON value `j`.
* Callback-handler invocations and Bedrock invocations are recorded in a
  chronological event trace returned next to the result.
* Go panics (out-of-range indexing) and `log.Fatal` aborts are explicit
  constructors, distinct from returned errors.
-/

namespace BedrockLC

/-- JSON values, as far as the wire formats of this program need them. -/
inductive Json : Type
  | str (s : String)
  | int (n : Int)
  | rat (q : Rat)
  | arr (elems : List Json)
  | obj (fields : List (String × Json))

/-- The constant `format = "\n\nHuman:%s\n\nAssistant:"` of `main.go`. -/
def format : String := "\n\nHuman:%s\n\nAssistant:"

/-- The constant `modelID = "anthropic.claude-v2"` of `main.go`. -/
def modelID : String := "anthropic.claude-v2"

/-- Result of `fmt.Sprintf(format, s)`: `format` contains the single
verb `%s`, so `Sprintf` substitutes `s` for it, yielding the text before
the verb, then `s`, then the text after the verb, unchanged. -/
def sprintfFormat (s : String) : String :=
  "\n\nHuman:" ++ s ++ "\n\nAssistant:"

/-- The `Request` struct of `main.go` (Go field types: `string`, `int`,
`float64`, `float64`, `int`, `[]string`). -/
structure Request : Type where
  prompt : String
  maxTokensToSample : Int
  temperature : Rat
  topP : Rat
  topK : Int
  stopSequences : List String
deriving DecidableEq

/-- The `Response` struct of `main.go`: `Completion string`. -/
structure Response : Type where
  completion : String
deriving DecidableEq

/-- A serialized JSON object body: an ordered list of fields, as
produced by `encoding/json` for a struct (declaration order). -/
abbrev Payload : Type := List (String × Json)

/-- Model of `json.Marshal` on `Request`: fields appear in declaration
order; `prompt` and `max_tokens_to_sample` have no `omitempty` tag and
are always emitted; `temperature`, `top_p`, `top_k`, `stop_sequences`
carry `omitempty` and are dropped when the value is Go's zero value
(`0`, `0.0`, nil/empty slice). -/
def marshalRequest (r : Request) : Payload :=
  [("prompt", Json.str r.prompt),
   ("max_tokens_to_sample", Json.int r.maxTokensToSample)]
  ++ (if r.temperature = 0 then [] else [("temperature", Json.rat r.temperature)])
  ++ (if r.topP = 0 then [] else [("top_p", Json.rat r.topP)])
  ++ (if r.topK = 0 then [] else [("top_k", Json.int r.topK)])
  ++ (if r.stopSequences = [] then [] else
      [("stop_sequences", Json.arr (r.stopSequences.map Json.str))])

/-- Whether a serialized object carries a field named `k`. -/
def hasField (p : Payload) (k : String) : Bool :=
  p.any (fun f => f.1 == k)

/-- Value of field `k` in a JSON object, as `json.Unmarshal` resolves
duplicate keys: the last occurrence wins. -/
def lookupField (fields : List (String × Json)) (k : String) : Option Json :=
  fields.foldl (fun acc f => if f.1 == k then some f.2 else acc) none

/-- Model of `json.Unmarshal(body, &resp)` for `resp : Response`:
fails when the bytes are not JSON (`none`) or not a JSON object, or when
a present `completion` field is not a string; a missing `completion`
field leaves `Completion` at its zero value `""`. -/
def unmarshalResponse : Option Json → Except String Response
  | none => .error "invalid JSON"
  | some (Json.obj fields) =>
      match lookupField fields "completion" with
      | none => .ok ⟨""⟩
      | some (Json.str s) => .ok ⟨s⟩
      | some _ => .error "cannot unmarshal field completion"
  | some _ => .error "cannot unmarshal into Response"

/-- The `llms.Generation` values this program constructs: only the
`Text` field is ever set (`{Text: resp.Completion}`). -/
structure Generation : Type where
  text : String
deriving DecidableEq

/-- The fields of `llms.CallOptions` that `Model.Generate` reads
(`MaxTokens`, `Temperature`, `TopP`, `TopK`, `StopWords`), with Go
`float64` modelled as `Rat`. -/
structure CallOptions : Type where
  maxTokens : Int
  temperature : Rat
  topP : Rat
  topK : Int
  stopWords : List String
deriving DecidableEq

/-- The zero-valued `&llms.CallOptions{}` that `Generate` starts from. -/
def defaultCallOptions : CallOptions :=
  { maxTokens := 0, temperature := 0, topP := 0, topK := 0, stopWords := [] }

/-- A `llms.CallOption` is a mutator of the options record; `Generate`
applies them in order: `for _, opt := range options { opt(opts) }`. -/
abbrev CallOption : Type := CallOptions → CallOptions

/-- Folding the option mutators over the zero options record. -/
def applyOptions (options : List CallOption) : CallOptions :=
  options.foldl (fun o f => f o) defaultCallOptions

/-- Outcome of a Go call: a returned value, a returned non-nil error,
or a runtime panic (which returns nothing). -/
inductive Outcome (α : Type) : Type
  | ok (a : α)
  | error (e : String)
  | panics

/-- Whether an outcome is a successful return. -/
def Outcome.isOk {α : Type} : Outcome α → Bool
  | .ok _ => true
  | _ => false

/-- Whether an outcome is a returned non-nil error. -/
def Outcome.isError {α : Type} : Outcome α → Bool
  | .error _ => true
  | _ => false

/-- Observable events of one `Generate` call, in chronological order:
callback-handler notifications and Bedrock invocations. -/
inductive Event : Type
  | llmStart (prompts : List String)
  | invoke (modelId : String) (payload : Payload)
  | llmEnd (generations : List (List Generation))

/-- Whether an event is a `HandleLLMStart` notification. -/
def Event.isStart : Event → Bool
  | .llmStart _ => true
  | _ => false

/-- Whether an event is a `HandleLLMEnd` notification. -/
def Event.isEnd : Event → Bool
  | .llmEnd _ => true
  | _ => false

/-- Whether an event is a Bedrock `InvokeModel` dispatch. -/
def Event.isInvoke : Event → Bool
  | .invoke _ _ => true
  | _ => false

/-- The `Model` struct of `main.go`.  `callbacksHandler` keeps only its
nil-ness (the handler's own behaviour is external); `bedrock` models the
`bedrockruntime.Client`: from the model id and payload of the
`InvokeModelInput` to either a transport error or the response bytes. -/
structure Model : Type where
  callbacksHandler : Option Unit
  bedrock : String → Payload → Except String (Option Json)
  useHumanAssistantPrompt : Bool
  modelID : String

/-- The `Request` literal built at lines 105–112 of `main.go` from the
first prompt and the folded options. -/
def buildRequest (p0 : String) (opts : CallOptions) : Request :=
  { prompt := sprintfFormat p0
    maxTokensToSample := opts.maxTokens
    temperature := opts.temperature
    topK := opts.topK
    topP := opts.topP
    stopSequences := opts.stopWords }

/-- The payload `json.Marshal(request)` that `Generate` transmits. -/
def buildPayload (p0 : String) (opts : CallOptions) : Payload :=
  marshalRequest (buildRequest p0 opts)

/-- `Model.getResponse` of `main.go`: invoke Bedrock with the model id
and payload, then unmarshal the body into a `Response`. -/
def Model.getResponse (m : Model) (payload : Payload) : Except String Response :=
  match m.bedrock m.modelID payload with
  | .error e => .error e
  | .ok body => unmarshalResponse body

/-- `Model.Generate` of `main.go`, returning the Go result next to the
chronological event trace.  Order of operations, as in the source:
`HandleLLMStart` (if a handler is set), fold the options, build the
request from `prompts[0]` (a panic when `prompts` is empty), marshal,
invoke Bedrock via `getResponse`, wrap the completion in a singleton
generation list, `HandleLLMEnd` (if a handler is set). -/
def Model.Generate (m : Model) (prompts : List String)
    (options : List CallOption) : Outcome (List Generation) × List Event :=
  let startEvents : List Event :=
    if m.callbacksHandler.isSome then [Event.llmStart prompts] else []
  match prompts with
  | [] => (.panics, startEvents)
  | p0 :: _ =>
    let opts := applyOptions options
    let payload := buildPayload p0 opts
    match m.getResponse payload with
    | .error e => (.error e, startEvents ++ [Event.invoke m.modelID payload])
    | .ok resp =>
      let generations : List Generation := [⟨resp.completion⟩]
      let endEvents : List Event :=
        if m.callbacksHandler.isSome then [Event.llmEnd [generations]] else []
      (.ok generations, startEvents ++ [Event.invoke m.modelID payload] ++ endEvents)

/-- Lines 86–92 of `Model.Call`: propagate a `Generate` error, return
the `"no response"` error when the generation list is empty, and return
`r[0].Text` otherwise. -/
def handleGenerateResult : Outcome (List Generation) → Outcome String
  | .panics => .panics
  | .error e => .error e
  | .ok [] => .error "no response"
  | .ok (g :: _) => .ok g.text

/-- `Model.Call` of `main.go`: `Generate` on the singleton prompt list,
then the emptiness check and projection of `r[0].Text`. -/
def Model.Call (m : Model) (prompt : String)
    (options : List CallOption) : Outcome String × List Event :=
  let (r, tr) := m.Generate [prompt] options
  (handleGenerateResult r, tr)

/-- The `schema.Document` fields this program consumes. -/
structure Document : Type where
  pageContent : String
  metadata : List (String × String)
deriving DecidableEq

/-- A Go `http.Response` as `getDocsFromLink` sees it: a status code
and a body (raw bytes as a string). -/
structure HttpResponse : Type where
  statusCode : Nat
  body : String
deriving DecidableEq

/-- Outcome of `getDocsFromLink`: documents returned to the caller, an
error returned to the caller, or a `log.Fatal` process abort. -/
inductive FetchOutcome : Type
  | docs (ds : List Document)
  | errReturn (e : String)
  | fatal (e : String)
deriving DecidableEq

/-- Whether a fetch outcome is an error returned to the caller. -/
def FetchOutcome.isErrReturn : FetchOutcome → Bool
  | .errReturn _ => true
  | _ => false

/-- Whether a fetch outcome produced a sequence of documents. -/
def FetchOutcome.isDocs : FetchOutcome → Bool
  | .docs _ => true
  | _ => false

/-- `getDocsFromLink` of `main.go`, over its two external collaborators:
`httpGet`, the result of `http.Get(link)` (a network error, or a
response whose status code is never inspected), and `htmlLoad`, the
HTML-to-documents loader `documentloaders.NewHTML(resp.Body).Load`.
A network error is returned to the caller (`return nil, err`); a loader
error hits `log.Fatal(err)` and aborts the process. -/
def getDocsFromLink (httpGet : Except String HttpResponse)
    (htmlLoad : String → Except String (List Document)) : FetchOutcome :=
  match httpGet with
  | .error e => .errReturn e
  | .ok resp =>
    match htmlLoad resp.body with
    | .error e => .fatal e
    | .ok docs => .docs docs

end BedrockLC

namespace BedrockLC

/-- A deterministic mock of the external collaborators: a model whose
Bedrock client always answers with the body `{"completion":"hello"}`
and whose callback handler is configured. -/
def mockModel : Model :=
  { callbacksHandler := some ()
    bedrock := fun _ _ => .ok (some (Json.obj [("completion", Json.str "hello")]))
    useHumanAssistantPrompt := true
    modelID := modelID }

/-- The mock model with no callback handler configured. -/
def mockModelNoCb : Model :=
  { mockModel with callbacksHandler := none }

/-- An HTML loader mock that always succeeds. -/
def htmlOk : String → Except String (List Document) :=
  fun body => .ok [⟨body, []⟩]

/-- An HTML loader mock that always fails. -/
def htmlBad : String → Except String (List Document) :=
  fun _ => .error "parse failure"

/-- Unfolding of `Generate` on an empty prompt list. -/
lemma generate_nil (m : Model) (options : List CallOption) :
    m.Generate [] options =
      (.panics, if m.callbacksHandler.isSome then [Event.llmStart []] else []) := rfl

/-- Unfolding of `Generate` when `getResponse` fails. -/
lemma generate_cons_err (m : Model) (p0 : String) (rest : List String)
    (options : List CallOption) (e : String)
    (h : m.getResponse (buildPayload p0 (applyOptions options)) = .error e) :
    m.Generate (p0 :: rest) options =
      (.error e,
       (if m.callbacksHandler.isSome then [Event.llmStart (p0 :: rest)] else [])
         ++ [Event.invoke m.modelID (buildPayload p0 (applyOptions options))]) := by
  simp only [Model.Generate, h]

/-- Unfolding of `Generate` when `getResponse` succeeds. -/
lemma generate_cons_ok (m : Model) (p0 : String) (rest : List String)
    (options : List CallOption) (resp : Response)
    (h : m.getResponse (buildPayload p0 (applyOptions options)) = .ok resp) :
    m.Generate (p0 :: rest) options =
      (.ok [⟨resp.completion⟩],
       (if m.callbacksHandler.isSome then [Event.llmStart (p0 :: rest)] else [])
         ++ [Event.invoke m.modelID (buildPayload p0 (applyOptions options))]
         ++ (if m.callbacksHandler.isSome
             then [Event.llmEnd [[⟨resp.completion⟩]]] else [])) := by
  simp only [Model.Generate, h]

/-- The `prompt` field of the marshalled request is the formatted
template applied to the first prompt. -/
lemma lookupField_buildPayload_prompt (X : String) (opts : CallOptions) :
    lookupField (buildPayload X opts) "prompt" = some (Json.str (sprintfFormat X)) := by
  unfold buildPayload marshalRequest buildRequest lookupField
  split_ifs <;> simp

end BedrockLC

namespace BedrockLC

/-- C1: for every prompt string X passed (as the head of the prompt
list) to `Model.Generate`, every payload the call transmits to the
Bedrock client has a `prompt` field whose value is exactly
`"\n\nHuman:X\n\nAssistant:"`. -/
theorem generate_prompt_template (m : Model) (X : String) (rest : List String)
    (options : List CallOption) (mid : String) (p : Payload)
    (h : Event.invoke mid p ∈ (m.Generate (X :: rest) options).2) :
    lookupField p "prompt" =
      some (Json.str ("\n\nHuman:" ++ X ++ "\n\nAssistant:")) := by
  have hp : p = buildPayload X (applyOptions options) := by
    rcases hr : m.getResponse (buildPayload X (applyOptions options)) with e | resp
    · rw [generate_cons_err m X rest options e hr] at h
      rcases m.callbacksHandler.isSome with _ | _ <;> simp_all
    · rw [generate_cons_ok m X rest options resp hr] at h
      rcases m.callbacksHandler.isSome with _ | _ <;> simp_all
  rw [hp]
  exact lookupField_buildPayload_prompt X (applyOptions options)

/-- C1 witness: a concrete instantiation of the template property on
the mock model. -/
theorem generate_prompt_template_witness :
    lookupField (buildPayload "X" defaultCallOptions) "prompt" =
      some (Json.str "\n\nHuman:X\n\nAssistant:") :=
  generate_prompt_template mockModel "X" [] [] mockModel.modelID
    (buildPayload "X" defaultCallOptions)
    (by
      rw [generate_cons_ok mockModel "X" [] [] ⟨"hello"⟩ rfl]
      simp [mockModel, applyOptions, defaultCallOptions])

/-- C2: whenever the Bedrock client answers the transmitted payload
with a body that is a JSON object whose `completion` field is the
string c, `Generate` returns successfully with the single generation
whose text is c. -/
theorem generate_returns_completion (m : Model) (X : String) (rest : List String)
    (options : List CallOption) (fields : List (String × Json)) (c : String)
    (hb : m.bedrock m.modelID (buildPayload X (applyOptions options)) =
      .ok (some (Json.obj fields)))
    (hc : lookupField fields "completion" = some (Json.str c)) :
    (m.Generate (X :: rest) options).1 = .ok [⟨c⟩] := by
  have hr : m.getResponse (buildPayload X (applyOptions options)) = .ok ⟨c⟩ := by
    simp only [Model.getResponse, hb, unmarshalResponse, hc]
  rw [generate_cons_ok m X rest options ⟨c⟩ hr]

/-- C2 witness: the mock endpoint answers `{"completion":"hello"}`, and
`Generate` returns the generation `"hello"`. -/
theorem generate_returns_completion_witness :
    (mockModel.Generate ["hi"] []).1 = Outcome.ok [⟨"hello"⟩] :=
  generate_returns_completion mockModel "hi" [] []
    [("completion", Json.str "hello")] "hello" rfl rfl

/-- C5: `Model.Call` returns the `"no response"` error (the
empty-result error) whenever the generation list coming out of
`Generate` is empty. -/
theorem call_errors_on_empty_generations (r : List Generation)
    (h : r.length = 0) :
    handleGenerateResult (Outcome.ok r) = Outcome.error "no response" := by
  rcases r with _ | ⟨g, r⟩
  · rfl
  · simp at h

/-- C5 witness: the empty-generation check at the empty list. -/
theorem call_errors_on_empty_generations_witness :
    handleGenerateResult (Outcome.ok []) = Outcome.error "no response" :=
  call_errors_on_empty_generations [] rfl

/-- C9: `Generate` reads `prompts[0]` unconditionally, so on the empty
prompt list it panics (index out of range) rather than returning an
error. -/
theorem generate_empty_prompts_panics (m : Model) (options : List CallOption) :
    (m.Generate [] options).1 = Outcome.panics ∧
      (m.Generate [] options).1.isError = false := ⟨rfl, rfl⟩

end BedrockLC

namespace BedrockLC

/-- C3: every successful `Generate` call returns exactly one generation
for the exactly one Bedrock request it dispatched. -/
theorem generate_exactly_one (m : Model) (prompts : List String)
    (options : List CallOption) (gens : List Generation) (tr : List Event)
    (h : m.Generate prompts options = (.ok gens, tr)) :
    gens.length = 1 ∧ tr.countP Event.isInvoke = 1 := by
  rcases prompts with _ | ⟨p0, rest⟩
  · rw [generate_nil] at h
    simp at h
  · rcases hr : m.getResponse (buildPayload p0 (applyOptions options)) with e | resp
    · rw [generate_cons_err m p0 rest options e hr] at h
      simp at h
    · rw [generate_cons_ok m p0 rest options resp hr] at h
      injection h with h1 h2
      injection h1 with h1
      subst h1
      subst h2
      cases hcb : m.callbacksHandler.isSome <;>
        simp [hcb, List.countP_cons, List.countP_append, Event.isInvoke,
          Event.isStart, Event.isEnd]

end BedrockLC

namespace BedrockLC

/-- C3 witness: the single-generation, single-invocation count on the
mock model's successful call. -/
theorem generate_exactly_one_witness :
    ([Generation.mk "hello"] : List Generation).length = 1 ∧
      ([Event.llmStart ["hi"],
        Event.invoke modelID (buildPayload "hi" defaultCallOptions),
        Event.llmEnd [[⟨"hello"⟩]]] : List Event).countP Event.isInvoke = 1 :=
  generate_exactly_one mockModel ["hi"] [] [⟨"hello"⟩]
    [Event.llmStart ["hi"],
     Event.invoke modelID (buildPayload "hi" defaultCallOptions),
     Event.llmEnd [[⟨"hello"⟩]]] rfl

/-- C4: when a callback handler is configured, a `Generate` call emits
exactly one start notification, as the very first event (hence before
the Bedrock dispatch), and emits exactly one end notification — as the
very last event — precisely when the call returns successfully; with no
handler configured, neither notification is ever emitted. -/
theorem generate_callback_discipline (m : Model) (prompts : List String)
    (options : List CallOption) :
    (m.callbacksHandler.isSome = true →
      (m.Generate prompts options).2.countP Event.isStart = 1 ∧
      (m.Generate prompts options).2.head? = some (Event.llmStart prompts) ∧
      ((m.Generate prompts options).1.isOk = true →
        (m.Generate prompts options).2.countP Event.isEnd = 1 ∧
        (m.Generate prompts options).2.getLast?.map Event.isEnd = some true) ∧
      ((m.Generate prompts options).1.isOk = false →
        (m.Generate prompts options).2.countP Event.isEnd = 0)) ∧
    (m.callbacksHandler.isSome = false →
      (m.Generate prompts options).2.countP Event.isStart = 0 ∧
      (m.Generate prompts options).2.countP Event.isEnd = 0) := by
  rcases prompts with _ | ⟨p0, rest⟩
  · cases hcb : m.callbacksHandler.isSome <;>
      simp [generate_nil, hcb, Outcome.isOk, Event.isStart, Event.isEnd,
        List.countP_cons, List.countP_nil]
  · rcases hr : m.getResponse (buildPayload p0 (applyOptions options)) with e | resp
    · rw [generate_cons_err m p0 rest options e hr]
      cases hcb : m.callbacksHandler.isSome <;>
        simp [hcb, Outcome.isOk, Event.isStart, Event.isEnd,
          List.countP_cons, List.countP_nil, List.countP_append]
    · rw [generate_cons_ok m p0 rest options resp hr]
      cases hcb : m.callbacksHandler.isSome <;>
        simp [hcb, Outcome.isOk, Event.isStart, Event.isEnd,
          List.countP_cons, List.countP_nil, List.countP_append]

/-- C4 witness: callback counts on the mock model with and without a
configured handler. -/
theorem generate_callback_discipline_witness :
    (mockModel.Generate ["hi"] []).2.countP Event.isStart = 1 ∧
      (mockModel.Generate ["hi"] []).2.countP Event.isEnd = 1 ∧
      (mockModelNoCb.Generate ["hi"] []).2.countP Event.isStart = 0 ∧
      (mockModelNoCb.Generate ["hi"] []).2.countP Event.isEnd = 0 := by
  have h1 := generate_callback_discipline mockModel ["hi"] []
  have h2 := generate_callback_discipline mockModelNoCb ["hi"] []
  exact ⟨(h1.1 rfl).1, ((h1.1 rfl).2.2.1 rfl).1, (h2.2 rfl).1, (h2.2 rfl).2⟩

/-- C8: `Generate` is deterministic over the non-remote part of the
computation: two models that agree on their handler, model id and
(pointwise) Bedrock client produce, for the same prompts and options,
identical results and identical traces. -/
theorem generate_deterministic (m₁ m₂ : Model) (prompts : List String)
    (options : List CallOption)
    (hcb : m₁.callbacksHandler = m₂.callbacksHandler)
    (hid : m₁.modelID = m₂.modelID)
    (hb : ∀ mid p, m₁.bedrock mid p = m₂.bedrock mid p) :
    m₁.Generate prompts options = m₂.Generate prompts options := by
  have hgr : ∀ p, m₁.getResponse p = m₂.getResponse p := by
    intro p
    unfold Model.getResponse
    rw [hid, hb]
  rcases prompts with _ | ⟨p0, rest⟩
  · rw [generate_nil, generate_nil, hcb]
  · rcases hr : m₂.getResponse (buildPayload p0 (applyOptions options)) with e | resp
    · rw [generate_cons_err m₁ p0 rest options e ((hgr _).trans hr),
          generate_cons_err m₂ p0 rest options e hr, hcb, hid]
    · rw [generate_cons_ok m₁ p0 rest options resp ((hgr _).trans hr),
          generate_cons_ok m₂ p0 rest options resp hr, hcb, hid]

/-- C8 witness: determinism instantiated at the deterministic mock. -/
theorem generate_deterministic_witness :
    mockModel.Generate ["hi"] [] = mockModel.Generate ["hi"] [] :=
  generate_deterministic mockModel mockModel ["hi"] [] rfl rfl
    (fun _ _ => rfl)

end BedrockLC

namespace BedrockLC

/-- C6 counterexample: on an HTML-parse failure (successful HTTP
response, loader error) `getDocsFromLink` does not return a fetch error
to its caller — it aborts the whole process via `log.Fatal`. -/
theorem fetch_parse_failure_not_returned :
    getDocsFromLink (Except.ok ⟨200, "<html>"⟩) htmlBad
        = FetchOutcome.fatal "parse failure" ∧
      (getDocsFromLink (Except.ok ⟨200, "<html>"⟩) htmlBad).isErrReturn
        = false := ⟨rfl, rfl⟩

/-- C6 (amended): on a network failure `getDocsFromLink` returns the
error to its caller; on an HTML-parse failure it aborts the process via
`log.Fatal` instead of returning; in either failure case no sequence of
Documents is produced. -/
theorem fetch_error_behavior (httpGet : Except String HttpResponse)
    (htmlLoad : String → Except String (List Document)) :
    (∀ e, httpGet = .error e →
      getDocsFromLink httpGet htmlLoad = .errReturn e ∧
      (getDocsFromLink httpGet htmlLoad).isDocs = false) ∧
    (∀ resp e, httpGet = .ok resp → htmlLoad resp.body = .error e →
      getDocsFromLink httpGet htmlLoad = .fatal e ∧
      (getDocsFromLink httpGet htmlLoad).isDocs = false) := by
  constructor
  · rintro e rfl
    exact ⟨rfl, rfl⟩
  · rintro resp e rfl hl
    simp [getDocsFromLink, hl, FetchOutcome.isDocs]

/-- C6 witness: both failure behaviours at concrete inputs. -/
theorem fetch_error_behavior_witness :
    getDocsFromLink (Except.error "dial tcp: lookup failed") htmlOk
        = FetchOutcome.errReturn "dial tcp: lookup failed" ∧
      getDocsFromLink (Except.ok ⟨200, "<html>"⟩) htmlBad
        = FetchOutcome.fatal "parse failure" :=
  ⟨((fetch_error_behavior (Except.error "dial tcp: lookup failed")
      htmlOk).1 "dial tcp: lookup failed" rfl).1,
   ((fetch_error_behavior (Except.ok ⟨200, "<html>"⟩) htmlBad).2
      ⟨200, "<html>"⟩ "parse failure" rfl rfl).1⟩

/-- C7: `getDocsFromLink` never inspects the HTTP status code — the
outcome for a received response is the same for any two status codes
with the same body, and a body that parses is treated as a successful
fetch even under a non-2xx status. -/
theorem fetch_ignores_status (s₁ s₂ : Nat) (body : String)
    (htmlLoad : String → Except String (List Document)) :
    getDocsFromLink (Except.ok ⟨s₁, body⟩) htmlLoad
        = getDocsFromLink (Except.ok ⟨s₂, body⟩) htmlLoad ∧
      (∀ ds, htmlLoad body = .ok ds →
        getDocsFromLink (Except.ok ⟨s₁, body⟩) htmlLoad = .docs ds ∧
        (getDocsFromLink (Except.ok ⟨s₁, body⟩) htmlLoad).isErrReturn
          = false) := by
  constructor
  · simp only [getDocsFromLink]
  · intro ds hds
    simp [getDocsFromLink, hds, FetchOutcome.isErrReturn]

/-- C7 witness: a 404 response whose body parses is a successful fetch. -/
theorem fetch_ignores_status_witness :
    getDocsFromLink (Except.ok ⟨404, "<html>"⟩) htmlOk
        = FetchOutcome.docs [⟨"<html>", []⟩] ∧
      (getDocsFromLink (Except.ok ⟨404, "<html>"⟩) htmlOk).isErrReturn
        = false :=
  (fetch_ignores_status 404 200 "<html>" htmlOk).2 [⟨"<html>", []⟩] rfl

/-- C10: in the marshalled request the `prompt` and
`max_tokens_to_sample` fields are always present, while `temperature`,
`top_p`, `top_k` and `stop_sequences` are present exactly when their
value is not the Go zero value — so an explicit zero for any of them is
never transmitted. -/
theorem marshal_omitempty (r : Request) :
    hasField (marshalRequest r) "prompt" = true ∧
      hasField (marshalRequest r) "max_tokens_to_sample" = true ∧
      hasField (marshalRequest r) "temperature" = decide (r.temperature ≠ 0) ∧
      hasField (marshalRequest r) "top_p" = decide (r.topP ≠ 0) ∧
      hasField (marshalRequest r) "top_k" = decide (r.topK ≠ 0) ∧
      hasField (marshalRequest r) "stop_sequences"
        = decide (r.stopSequences ≠ []) := by
  unfold marshalRequest hasField
  split_ifs <;> simp_all

end BedrockLC
